import Mathlib

/-!
Verification development for the Pomodoro timer widget
(`src/components/PomodoroTimer.tsx`).

The component keeps seven pieces of React state (`timers`, `activeTimerId`,
`timeLeft`, `isActive`, `completedPomodoros`, `isEditing`, `editingTimer`)
and mutates them through a small set of handlers plus one clock-driving
effect.  We embed that state as a record and each handler as a pure state
transformer.  Machine numbers are embedded as `Int` (durations, countdown
value) and `Nat` (the completed-session counter, which is only ever
incremented).  The one-second interval together with the effect that
re-evaluates on every `timeLeft`/`isActive` change is embedded as `tick`:
one interval firing followed by one effect evaluation.
-/

/-- `interface Timer`: a named preset with a duration in seconds. -/
structure Timer where
  id : String
  name : String
  duration : Int
deriving DecidableEq

/-- `interface EditingTimer`: the ephemeral draft used while editing. -/
structure EditingTimer where
  id : String
  name : String
  duration : Int
deriving DecidableEq

/-- The seven `useState` cells of `PomodoroTimer`. -/
structure PomodoroState where
  timers : List Timer
  activeTimerId : String
  timeLeft : Int
  isActive : Bool
  completedPomodoros : Nat
  isEditing : Bool
  editingTimer : Option EditingTimer
deriving DecidableEq

/-- The initial state of the component: one preset `{id: '1', name: 'Work',
duration: 25*60}`, selected, 25*60 seconds on the clock, stopped. -/
def initialState : PomodoroState :=
  { timers := [{ id := "1", name := "Work", duration := 25 * 60 }]
    activeTimerId := "1"
    timeLeft := 25 * 60
    isActive := false
    completedPomodoros := 0
    isEditing := false
    editingTimer := none }

/-- `resetTimer`: `setIsActive(false)`; then if `timers.find(t => t.id ===
activeTimerId)` yields a timer, `setTimeLeft(currentTimer.duration)`. -/
def resetTimer (s : PomodoroState) : PomodoroState :=
  match s.timers.find? (fun t => t.id == s.activeTimerId) with
  | some t => { s with isActive := false, timeLeft := t.duration }
  | none => { s with isActive := false }

/-- `handleTimerComplete`: plays the notification sound (which has no effect
on the component state), then `setIsActive(false)`,
`setCompletedPomodoros(prev => prev + 1)`, `resetTimer()`. -/
def handleTimerComplete (s : PomodoroState) : PomodoroState :=
  resetTimer { s with isActive := false,
                      completedPomodoros := s.completedPomodoros + 1 }

/-- `toggleTimer`: `setIsActive(!isActive)`. -/
def toggleTimer (s : PomodoroState) : PomodoroState :=
  { s with isActive := !s.isActive }

/-- One firing of the `setInterval` callback.  The interval exists exactly
while `isActive && timeLeft > 0`, and each firing runs
`setTimeLeft(time => time - 1)`. -/
def intervalTick (s : PomodoroState) : PomodoroState :=
  if s.isActive ∧ 0 < s.timeLeft then { s with timeLeft := s.timeLeft - 1 }
  else s

/-- One evaluation of the clock-driver effect body: `if (isActive && timeLeft
> 0)` it (re)schedules the interval and changes no state; `else if (timeLeft
=== 0)` it runs `handleTimerComplete()`. -/
def effectEval (s : PomodoroState) : PomodoroState :=
  if s.isActive ∧ 0 < s.timeLeft then s
  else if s.timeLeft = 0 then handleTimerComplete s
  else s

/-- One clock tick: the interval fires (decrementing `timeLeft` when it is
armed) and the effect re-evaluates on the updated state. -/
def tick (s : PomodoroState) : PomodoroState :=
  effectEval (intervalTick s)

/-- `formatTime`'s `padStart(2, '0')` on the decimal rendering of a field. -/
def padStart2 (str : String) : String :=
  if str.length < 2 then String.mk (List.replicate (2 - str.length) '0') ++ str
  else str

/-- `formatTime`: `Math.floor(seconds / 60)` and `seconds % 60`, each
rendered in decimal and padded to two digits, joined by a colon.  The claims
quantify over non-negative inputs only, where JS division/modulo agree with
`Nat` division/modulo. -/
def formatTime (seconds : Nat) : String :=
  padStart2 (toString (seconds / 60)) ++ ":" ++ padStart2 (toString (seconds % 60))

/-- `addNewTimer`: appends `{id: Date.now().toString(), name: 'New Timer',
duration: 25*60}`.  The wall-clock reading `Date.now()` is an input here. -/
def addNewTimer (s : PomodoroState) (now : Nat) : PomodoroState :=
  { s with timers := s.timers ++ [{ id := toString now, name := "New Timer", duration := 25 * 60 }] }

/-- The select button's `onClick` for the rendered preset `t`:
`setActiveTimerId(timer.id); setTimeLeft(timer.duration); setIsActive(false)`. -/
def selectPreset (s : PomodoroState) (t : Timer) : PomodoroState :=
  { s with activeTimerId := t.id, timeLeft := t.duration, isActive := false }

/-- `startEditing(timer)`: copies the preset's fields into the draft and
enters edit mode. -/
def startEditing (s : PomodoroState) (t : Timer) : PomodoroState :=
  { s with editingTimer := some { id := t.id, name := t.name, duration := t.duration }
           isEditing := true }

/-- `saveEdit`: if a draft exists, map over `timers` replacing the name and
duration of every timer whose id equals the draft's id; if `activeTimerId ===
editingTimer.id` also `setTimeLeft(editingTimer.duration)`; in all cases
`setIsEditing(false); setEditingTimer(null)`. -/
def saveEdit (s : PomodoroState) : PomodoroState :=
  match s.editingTimer with
  | some e =>
    let s1 := { s with timers := s.timers.map (fun t : Timer =>
      if t.id == e.id then { t with name := e.name, duration := e.duration } else t) }
    let s2 := if s.activeTimerId == e.id then { s1 with timeLeft := e.duration } else s1
    { s2 with isEditing := false, editingTimer := none }
  | none => { s with isEditing := false, editingTimer := none }

/-- The digits a JS `parseInt` consumes, as a number. -/
def digitsToNat (cs : List Char) : Nat :=
  cs.foldl (fun acc c => 10 * acc + (c.toNat - 48)) 0

/-- JS `parseInt(str)` on the strings an `<input type="number">` can
produce: skip leading whitespace, read an optional sign, then the longest
prefix of decimal digits; no digits means `NaN`, embedded as `none`. -/
def jsParseInt (str : String) : Option Int :=
  let cs := str.data.dropWhile (fun c => c == ' ' || c == '\t' || c == '\n' || c == '\r')
  let signed : Int × List Char :=
    match cs with
    | '-' :: r => (-1, r)
    | '+' :: r => (1, r)
    | r => (1, r)
  let ds := signed.2.takeWhile Char.isDigit
  if ds.isEmpty then none else some (signed.1 * digitsToNat ds)

/-- `handleDurationChange(minutes)`: when a draft exists, compute `duration =
parseInt(minutes) * 60` and accept it into the draft only when `!isNaN
(duration) && duration > 0`. -/
def handleDurationChange (s : PomodoroState) (minutes : String) : PomodoroState :=
  match s.editingTimer with
  | some e =>
    match jsParseInt minutes with
    | some m => if 0 < m * 60 then { s with editingTimer := some { e with duration := m * 60 } } else s
    | none => s
  | none => s

/-- The name input's `onChange`: `setEditingTimer({...editingTimer, name:
e.target.value})`, available only while a draft exists. -/
def handleNameChange (s : PomodoroState) (text : String) : PomodoroState :=
  match s.editingTimer with
  | some e => { s with editingTimer := some { e with name := text } }
  | none => s

/-- The audio layer either succeeds or throws; which one happens is an
environment input. -/
def attemptAudio (audioThrows : Bool) : Except Unit Unit :=
  if audioThrows then Except.error () else Except.ok ()

/-- The canonical two-tone `playNotificationSound` (lines 73-123): its whole
body sits in `try { ... } catch (error) { console.error(...) }`, so a throw
is swallowed. -/
def playNotificationSoundTwoTone (audioThrows : Bool) : Except Unit Unit :=
  match attemptAudio audioThrows with
  | Except.ok u => Except.ok u
  | Except.error _ => Except.ok ()

/-- The single-tone `playNotificationSound` variant (lines 346-360 of the
concatenated source): same audio attempt but with no `try`/`catch`, so a
throw propagates to the caller. -/
def playNotificationSoundSingle (audioThrows : Bool) : Except Unit Unit :=
  attemptAudio audioThrows

/-- `handleTimerComplete` with the two-tone sound inlined: the sound call
runs first, then the bookkeeping. -/
def handleTimerCompleteTwoTone (audioThrows : Bool) (s : PomodoroState) :
    Except Unit PomodoroState := do
  let _ ← playNotificationSoundTwoTone audioThrows
  pure (resetTimer { s with isActive := false,
                            completedPomodoros := s.completedPomodoros + 1 })

/-- `handleTimerComplete` of the single-tone variant: the sound call runs
first and an uncaught throw aborts the rest of the handler. -/
def handleTimerCompleteSingle (audioThrows : Bool) (s : PomodoroState) :
    Except Unit PomodoroState := do
  let _ ← playNotificationSoundSingle audioThrows
  pure (resetTimer { s with isActive := false,
                            completedPomodoros := s.completedPomodoros + 1 })

/-- States reachable from the mount state through the component's handlers,
interval firings and effect evaluations. -/
inductive Reachable : PomodoroState → Prop where
  | init : Reachable initialState
  | istep {s : PomodoroState} : Reachable s → Reachable (tick s)
  | estep {s : PomodoroState} : Reachable s → Reachable (effectEval s)
  | toggle {s : PomodoroState} : Reachable s → Reachable (toggleTimer s)
  | reset {s : PomodoroState} : Reachable s → Reachable (resetTimer s)
  | select {s : PomodoroState} {t : Timer} : Reachable s → t ∈ s.timers →
      Reachable (selectPreset s t)
  | add {s : PomodoroState} (now : Nat) : Reachable s → Reachable (addNewTimer s now)
  | edit {s : PomodoroState} {t : Timer} : Reachable s → t ∈ s.timers →
      Reachable (startEditing s t)
  | save {s : PomodoroState} : Reachable s → Reachable (saveEdit s)
  | durInput {s : PomodoroState} (m : String) : Reachable s →
      Reachable (handleDurationChange s m)
  | nameInput {s : PomodoroState} (txt : String) : Reachable s →
      Reachable (handleNameChange s txt)

/-- The state invariant the claims rely on: the countdown is non-negative
and every stored or drafted duration is positive. -/
def StateInv (s : PomodoroState) : Prop :=
  0 ≤ s.timeLeft ∧ (∀ t ∈ s.timers, 0 < t.duration) ∧
    (∀ e, s.editingTimer = some e → 0 < e.duration)

/-! ## Basic lemmas about the clock driver and reset -/

lemma resetTimer_found (s : PomodoroState) (t : Timer)
    (hf : s.timers.find? (fun u => u.id == s.activeTimerId) = some t) :
    resetTimer s = { s with isActive := false, timeLeft := t.duration } := by
  unfold resetTimer
  rw [hf]

lemma resetTimer_none (s : PomodoroState)
    (hf : s.timers.find? (fun u => u.id == s.activeTimerId) = none) :
    resetTimer s = { s with isActive := false } := by
  unfold resetTimer
  rw [hf]

lemma handleTimerComplete_spec (s : PomodoroState) (t : Timer)
    (hf : s.timers.find? (fun u => u.id == s.activeTimerId) = some t) :
    handleTimerComplete s =
      { s with isActive := false, completedPomodoros := s.completedPomodoros + 1,
               timeLeft := t.duration } := by
  unfold handleTimerComplete
  exact resetTimer_found
    { s with isActive := false, completedPomodoros := s.completedPomodoros + 1 } t hf

lemma intervalTick_run (s : PomodoroState) (hact : s.isActive = true)
    (h0 : 0 < s.timeLeft) :
    intervalTick s = { s with timeLeft := s.timeLeft - 1 } := by
  unfold intervalTick
  rw [if_pos ⟨hact, h0⟩]

lemma intervalTick_skip (s : PomodoroState)
    (h : ¬ (s.isActive = true ∧ 0 < s.timeLeft)) : intervalTick s = s := by
  unfold intervalTick
  rw [if_neg h]

lemma effectEval_run (s : PomodoroState) (hact : s.isActive = true)
    (h0 : 0 < s.timeLeft) : effectEval s = s := by
  unfold effectEval
  rw [if_pos ⟨hact, h0⟩]

lemma effectEval_complete (s : PomodoroState)
    (h : ¬ (s.isActive = true ∧ 0 < s.timeLeft)) (h0 : s.timeLeft = 0) :
    effectEval s = handleTimerComplete s := by
  unfold effectEval
  rw [if_neg h, if_pos h0]

lemma effectEval_idle (s : PomodoroState)
    (h : ¬ (s.isActive = true ∧ 0 < s.timeLeft)) (h0 : s.timeLeft ≠ 0) :
    effectEval s = s := by
  unfold effectEval
  rw [if_neg h, if_neg h0]

lemma tick_decrement (s : PomodoroState) (hact : s.isActive = true)
    (h2 : 1 < s.timeLeft) : tick s = { s with timeLeft := s.timeLeft - 1 } := by
  rw [tick, intervalTick_run s hact (by omega)]
  exact effectEval_run { s with timeLeft := s.timeLeft - 1 } hact (by simp; omega)

lemma tick_complete (s : PomodoroState) (hact : s.isActive = true)
    (h1 : s.timeLeft = 1) : tick s = handleTimerComplete { s with timeLeft := 0 } := by
  rw [tick, intervalTick_run s hact (by omega)]
  have hz : s.timeLeft - 1 = 0 := by omega
  rw [hz]
  exact effectEval_complete { s with timeLeft := 0 }
    (fun hc => absurd hc.2 (by simp)) rfl

lemma tick_idle (s : PomodoroState) (hact : s.isActive = false)
    (h0 : s.timeLeft ≠ 0) : tick s = s := by
  have hn : ¬ (s.isActive = true ∧ 0 < s.timeLeft) := by
    intro hc
    rw [hact] at hc
    exact Bool.noConfusion hc.1
  rw [tick, intervalTick_skip s hn]
  exact effectEval_idle s hn h0

/-! ## Running the countdown -/

lemma countdown_iter : ∀ (k n : Nat) (s : PomodoroState), k ≤ n →
    s.isActive = true → s.timeLeft = (n : Int) + 1 →
    tick^[k] s = { s with timeLeft := ((n - k : Nat) : Int) + 1 } := by
  intro k
  induction k with
  | zero =>
    intro n s _ _ htl
    rw [Function.iterate_zero_apply, Nat.sub_zero, ← htl]
  | succ k ih =>
    intro n s hk hact htl
    have hn : 1 ≤ n := le_trans (Nat.succ_le_succ (Nat.zero_le k)) hk
    rw [Function.iterate_succ_apply,
        tick_decrement s hact (by rw [htl]; omega)]
    have hstep := ih (n - 1) { s with timeLeft := s.timeLeft - 1 }
      (by omega) hact (by show s.timeLeft - 1 = ((n - 1 : Nat) : Int) + 1; rw [htl]; omega)
    rw [hstep]
    have hsub : n - 1 - k = n - (k + 1) := by omega
    rw [hsub]

/-! ## Field preservation lemmas -/

lemma resetTimer_frame (s : PomodoroState) :
    (resetTimer s).timers = s.timers ∧
    (resetTimer s).activeTimerId = s.activeTimerId ∧
    (resetTimer s).completedPomodoros = s.completedPomodoros ∧
    (resetTimer s).isEditing = s.isEditing ∧
    (resetTimer s).editingTimer = s.editingTimer ∧
    (resetTimer s).isActive = false := by
  unfold resetTimer
  cases s.timers.find? (fun t => t.id == s.activeTimerId) with
  | some t => exact ⟨rfl, rfl, rfl, rfl, rfl, rfl⟩
  | none => exact ⟨rfl, rfl, rfl, rfl, rfl, rfl⟩

lemma intervalTick_frame (s : PomodoroState) :
    (intervalTick s).timers = s.timers ∧
    (intervalTick s).activeTimerId = s.activeTimerId ∧
    (intervalTick s).completedPomodoros = s.completedPomodoros ∧
    (intervalTick s).isEditing = s.isEditing ∧
    (intervalTick s).editingTimer = s.editingTimer ∧
    (intervalTick s).isActive = s.isActive := by
  unfold intervalTick
  split
  · exact ⟨rfl, rfl, rfl, rfl, rfl, rfl⟩
  · exact ⟨rfl, rfl, rfl, rfl, rfl, rfl⟩

lemma effectEval_timers (s : PomodoroState) : (effectEval s).timers = s.timers := by
  unfold effectEval
  split
  · rfl
  split
  · exact (resetTimer_frame _).1
  · rfl

lemma tick_timers (s : PomodoroState) : (tick s).timers = s.timers := by
  rw [tick, effectEval_timers, (intervalTick_frame s).1]

/-! ## The reachable-state invariant -/

lemma find?_duration_pos (s : PomodoroState) (t : Timer)
    (hpos : ∀ u ∈ s.timers, 0 < u.duration)
    (hf : s.timers.find? (fun u => u.id == s.activeTimerId) = some t) :
    0 < t.duration :=
  hpos t (List.mem_of_find?_eq_some hf)

lemma inv_resetTimer (s : PomodoroState) (h : StateInv s) : StateInv (resetTimer s) := by
  obtain ⟨h1, h2, h3⟩ := h
  unfold resetTimer
  cases hf : s.timers.find? (fun t => t.id == s.activeTimerId) with
  | some t => exact ⟨le_of_lt (find?_duration_pos s t h2 hf), h2, h3⟩
  | none => exact ⟨h1, h2, h3⟩

lemma inv_handleTimerComplete (s : PomodoroState) (h : StateInv s) :
    StateInv (handleTimerComplete s) := by
  obtain ⟨h1, h2, h3⟩ := h
  exact inv_resetTimer
    { s with isActive := false, completedPomodoros := s.completedPomodoros + 1 }
    ⟨h1, h2, h3⟩

lemma inv_effectEval (s : PomodoroState) (h : StateInv s) : StateInv (effectEval s) := by
  unfold effectEval
  split
  · exact h
  split
  · exact inv_handleTimerComplete s h
  · exact h

lemma inv_intervalTick (s : PomodoroState) (h : StateInv s) : StateInv (intervalTick s) := by
  obtain ⟨h1, h2, h3⟩ := h
  unfold intervalTick
  split
  · next hc => exact ⟨by have := hc.2; simp; omega, h2, h3⟩
  · exact ⟨h1, h2, h3⟩

lemma inv_tick (s : PomodoroState) (h : StateInv s) : StateInv (tick s) :=
  inv_effectEval (intervalTick s) (inv_intervalTick s h)

lemma inv_saveEdit (s : PomodoroState) (h : StateInv s) : StateInv (saveEdit s) := by
  obtain ⟨h1, h2, h3⟩ := h
  unfold saveEdit
  cases he : s.editingTimer with
  | none => exact ⟨h1, h2, fun e hcontra => Option.noConfusion hcontra⟩
  | some e =>
    dsimp only
    have hed : 0 < e.duration := h3 e he
    have hmap : ∀ u ∈ s.timers.map (fun t : Timer =>
        if t.id == e.id then { t with name := e.name, duration := e.duration } else t),
        0 < u.duration := by
      intro u hu
      rcases List.mem_map.1 hu with ⟨t, ht, rfl⟩
      split
      · exact hed
      · exact h2 t ht
    split
    · exact ⟨le_of_lt hed, hmap, fun e' hcontra => Option.noConfusion hcontra⟩
    · exact ⟨h1, hmap, fun e' hcontra => Option.noConfusion hcontra⟩

lemma inv_durChange (s : PomodoroState) (m : String) (h : StateInv s) :
    StateInv (handleDurationChange s m) := by
  obtain ⟨h1, h2, h3⟩ := h
  unfold handleDurationChange
  cases s.editingTimer with
  | none => exact ⟨h1, h2, h3⟩
  | some e =>
    dsimp only
    cases jsParseInt m with
    | none => exact ⟨h1, h2, h3⟩
    | some mv =>
      dsimp only
      split
      · next hpos =>
        refine ⟨h1, h2, fun e' he' => ?_⟩
        cases he'
        exact hpos
      · exact ⟨h1, h2, h3⟩

lemma inv_nameChange (s : PomodoroState) (txt : String) (h : StateInv s) :
    StateInv (handleNameChange s txt) := by
  obtain ⟨h1, h2, h3⟩ := h
  unfold handleNameChange
  cases he : s.editingTimer with
  | none => exact ⟨h1, h2, h3⟩
  | some e =>
    dsimp only
    refine ⟨h1, h2, fun e' he' => ?_⟩
    cases he'
    exact h3 e he

lemma reachable_inv (s : PomodoroState) (h : Reachable s) : StateInv s := by
  induction h with
  | init =>
    refine ⟨by norm_num [initialState], ?_, ?_⟩
    · intro t ht
      simp only [initialState, List.mem_singleton] at ht
      rw [ht]
      norm_num
    · intro e he
      simp [initialState] at he
  | istep _ ih => exact inv_tick _ ih
  | estep _ ih => exact inv_effectEval _ ih
  | toggle _ ih => exact ih
  | reset _ ih => exact inv_resetTimer _ ih
  | select _ hmem ih => exact ⟨le_of_lt (ih.2.1 _ hmem), ih.2.1, ih.2.2⟩
  | add now _ ih =>
    refine ⟨ih.1, ?_, ih.2.2⟩
    intro t ht
    rcases List.mem_append.1 ht with hl | hr
    · exact ih.2.1 t hl
    · simp only [List.mem_singleton] at hr
      rw [hr]
      norm_num
  | edit _ hmem ih =>
    refine ⟨ih.1, ih.2.1, fun e he => ?_⟩
    cases he
    exact ih.2.1 _ hmem
  | save _ ih => exact inv_saveEdit _ ih
  | durInput m _ ih => exact inv_durChange _ m ih
  | nameInput txt _ ih => exact inv_nameChange _ txt ih

/-! ## Claim theorems -/

/-- C1: from any running state whose countdown reads `D > 0`, applying `D`
ticks produces exactly one completion event: `isActive` becomes false,
`completedPomodoros` grows by exactly 1 (and is untouched by every earlier
tick), and `timeLeft` is reset to the active preset's duration as re-read
from `timers` at completion time; a further tick changes nothing, so the
zero-crossing never fires twice. -/
theorem C1_run_to_completion (s : PomodoroState) (t : Timer) (D : Nat)
    (hrun : s.isActive = true) (hD : 0 < D) (htl : s.timeLeft = (D : Int))
    (hfind : s.timers.find? (fun u => u.id == s.activeTimerId) = some t)
    (hdur : 0 < t.duration) :
    (tick^[D] s).isActive = false ∧
    (tick^[D] s).completedPomodoros = s.completedPomodoros + 1 ∧
    (tick^[D] s).timeLeft = t.duration ∧
    (∀ k, k < D → (tick^[k] s).completedPomodoros = s.completedPomodoros) ∧
    tick (tick^[D] s) = tick^[D] s := by
  obtain ⟨n, rfl⟩ : ∃ n, D = n + 1 := ⟨D - 1, by omega⟩
  have htl2 : s.timeLeft = (n : Int) + 1 := by rw [htl]; push_cast; ring
  have hone : tick^[n] s = { s with timeLeft := (1 : Int) } := by
    have h := countdown_iter n n s le_rfl hrun htl2
    rwa [Nat.sub_self] at h
  have hfin : tick^[n + 1] s =
      { s with isActive := false, completedPomodoros := s.completedPomodoros + 1,
               timeLeft := t.duration } := by
    rw [Function.iterate_succ_apply', hone,
        tick_complete { s with timeLeft := (1 : Int) } hrun rfl]
    exact handleTimerComplete_spec { s with timeLeft := (0 : Int) } t hfind
  refine ⟨by rw [hfin], by rw [hfin], by rw [hfin], ?_, ?_⟩
  · intro k hk
    have h := countdown_iter k n s (by omega) hrun htl2
    rw [h]
  · rw [hfin]
    exact tick_idle _ rfl (by simp; omega)

/-- C2: the interval decrements `timeLeft` by exactly 1 whenever it fires
(it is armed exactly while `isActive` holds and `timeLeft > 0`), it changes
nothing otherwise, and in every reachable state `timeLeft` is
non-negative. -/
theorem C2_tick_monotone (s : PomodoroState) :
    (s.isActive = true → 0 < s.timeLeft →
      (intervalTick s).timeLeft = s.timeLeft - 1) ∧
    (¬ (s.isActive = true ∧ 0 < s.timeLeft) → intervalTick s = s) ∧
    (Reachable s → 0 ≤ s.timeLeft) := by
  refine ⟨fun hact h0 => ?_, fun hn => intervalTick_skip s hn,
    fun hr => (reachable_inv s hr).1⟩
  rw [intervalTick_run s hact h0]

/-- C2 witness: concrete instances — one armed tick from the started
default state, the unarmed initial state, and non-negativity of a reachable
state. -/
theorem C2_tick_monotone_witness :
    (intervalTick (toggleTimer initialState)).timeLeft =
      (toggleTimer initialState).timeLeft - 1 ∧
    intervalTick initialState = initialState ∧
    0 ≤ (tick (toggleTimer initialState)).timeLeft :=
  ⟨(C2_tick_monotone (toggleTimer initialState)).1 rfl (by decide),
   (C2_tick_monotone initialState).2.1 (by decide),
   (C2_tick_monotone (tick (toggleTimer initialState))).2.2
     (Reachable.istep (Reachable.toggle Reachable.init))⟩

/-- C1 witness: the spec scenario — start the default state and run 1500
ticks; the run stops, exactly one session is recorded, and the countdown is
back at the Work preset's 1500 seconds. -/
theorem C1_run_to_completion_witness :
    (tick^[1500] (toggleTimer initialState)).isActive = false ∧
    (tick^[1500] (toggleTimer initialState)).completedPomodoros = 1 ∧
    (tick^[1500] (toggleTimer initialState)).timeLeft = 1500 :=
  ⟨(C1_run_to_completion (toggleTimer initialState)
      { id := "1", name := "Work", duration := 1500 } 1500
      rfl (by decide) (by decide) (by decide) (by decide)).1,
   (C1_run_to_completion (toggleTimer initialState)
      { id := "1", name := "Work", duration := 1500 } 1500
      rfl (by decide) (by decide) (by decide) (by decide)).2.1,
   (C1_run_to_completion (toggleTimer initialState)
      { id := "1", name := "Work", duration := 1500 } 1500
      rfl (by decide) (by decide) (by decide) (by decide)).2.2.1⟩

/-- A concrete in-edit state used by several witnesses: the Work preset is
being edited with a draft named "Focus" holding 600 seconds. -/
def editState : PomodoroState :=
  { initialState with isEditing := true,
                      editingTimer := some { id := "1", name := "Focus", duration := 600 } }

/-- C3: while a draft is active, a duration input whose `parseInt` is `NaN`
or whose parsed value is non-positive leaves the state (hence the draft)
unchanged, while a parsed positive number of minutes `m` rewrites only the
draft's duration, to the positive value `m * 60` seconds. -/
theorem C3_duration_input (s : PomodoroState) (e : EditingTimer) (input : String)
    (he : s.editingTimer = some e) :
    (jsParseInt input = none → handleDurationChange s input = s) ∧
    (∀ m : Int, jsParseInt input = some m → m ≤ 0 →
      handleDurationChange s input = s) ∧
    (∀ m : Int, jsParseInt input = some m → 0 < m →
      handleDurationChange s input =
        { s with editingTimer := some { e with duration := m * 60 } } ∧
      0 < m * 60) := by
  unfold handleDurationChange
  rw [he]
  refine ⟨fun hp => by rw [hp], fun m hp hm => ?_, fun m hp hm => ?_⟩
  · rw [hp]
    dsimp only
    rw [if_neg (by omega)]
  · rw [hp]
    dsimp only
    rw [if_pos (by omega)]
    exact ⟨rfl, by omega⟩

/-- C3 witness: in `editState`, the non-numeric input "abc" and the
non-positive inputs "0" and "-7" are rejected, and the input "10" is
accepted as 600 seconds. -/
theorem C3_duration_input_witness :
    handleDurationChange editState "abc" = editState ∧
    handleDurationChange editState "0" = editState ∧
    handleDurationChange editState "-7" = editState ∧
    (handleDurationChange editState "10" =
      { editState with editingTimer := some { id := "1", name := "Focus", duration := 600 } } ∧
     (0 : Int) < 10 * 60) :=
  ⟨(C3_duration_input editState { id := "1", name := "Focus", duration := 600 } "abc"
      rfl).1 (by decide),
   (C3_duration_input editState { id := "1", name := "Focus", duration := 600 } "0"
      rfl).2.1 0 (by decide) (by decide),
   (C3_duration_input editState { id := "1", name := "Focus", duration := 600 } "-7"
      rfl).2.1 (-7) (by decide) (by decide),
   (C3_duration_input editState { id := "1", name := "Focus", duration := 600 } "10"
      rfl).2.2 10 (by decide) (by decide)⟩

/-- C4: with an active draft, `saveEdit` rewrites the name and duration of
the timers matching the draft's id, snaps `timeLeft` to the draft's duration
exactly when the draft targets the active preset (leaving `isActive`
untouched either way), and leaves edit mode with the draft cleared; all
other fields are unchanged. -/
theorem C4_commit_edit (s : PomodoroState) (e : EditingTimer)
    (he : s.editingTimer = some e) :
    (saveEdit s).timers = s.timers.map (fun t : Timer =>
      if t.id == e.id then { t with name := e.name, duration := e.duration } else t) ∧
    (saveEdit s).timeLeft = (if s.activeTimerId == e.id then e.duration else s.timeLeft) ∧
    (saveEdit s).isActive = s.isActive ∧
    (saveEdit s).activeTimerId = s.activeTimerId ∧
    (saveEdit s).completedPomodoros = s.completedPomodoros ∧
    (saveEdit s).isEditing = false ∧
    (saveEdit s).editingTimer = none := by
  unfold saveEdit
  rw [he]
  dsimp only
  split
  · exact ⟨rfl, rfl, rfl, rfl, rfl, rfl, rfl⟩
  · exact ⟨rfl, rfl, rfl, rfl, rfl, rfl, rfl⟩

/-- C4 witness: committing the 600-second draft on the active Work preset
updates the stored preset, snaps the countdown to 600 immediately, and
leaves edit mode. -/
theorem C4_commit_edit_witness :
    (saveEdit editState).timers =
      [{ id := "1", name := "Focus", duration := 600 }] ∧
    (saveEdit editState).timeLeft = 600 ∧
    (saveEdit editState).isActive = editState.isActive ∧
    (saveEdit editState).isEditing = false ∧
    (saveEdit editState).editingTimer = none := by
  have h := C4_commit_edit editState { id := "1", name := "Focus", duration := 600 } rfl
  exact ⟨by rw [h.1]; decide, by rw [h.2.1]; decide, h.2.2.1, h.2.2.2.2.2.1, h.2.2.2.2.2.2⟩

/-- C5: selecting a rendered preset makes it active, loads its stored
duration into the countdown, and stops the clock, whatever the prior state;
the collection and the bookkeeping fields are untouched. -/
theorem C5_select_preset (s : PomodoroState) (t : Timer) (_hmem : t ∈ s.timers) :
    (selectPreset s t).activeTimerId = t.id ∧
    (selectPreset s t).timeLeft = t.duration ∧
    (selectPreset s t).isActive = false ∧
    (selectPreset s t).timers = s.timers ∧
    (selectPreset s t).completedPomodoros = s.completedPomodoros ∧
    (selectPreset s t).isEditing = s.isEditing ∧
    (selectPreset s t).editingTimer = s.editingTimer :=
  ⟨rfl, rfl, rfl, rfl, rfl, rfl, rfl⟩

/-- C5 witness: selecting the Work preset from a running state stops the
clock and loads 1500 seconds. -/
theorem C5_select_preset_witness :
    (selectPreset (toggleTimer initialState) { id := "1", name := "Work", duration := 1500 }).timeLeft = 1500 ∧
    (selectPreset (toggleTimer initialState) { id := "1", name := "Work", duration := 1500 }).isActive = false :=
  ⟨(C5_select_preset (toggleTimer initialState)
      { id := "1", name := "Work", duration := 1500 } (by decide)).2.1,
   (C5_select_preset (toggleTimer initialState)
      { id := "1", name := "Work", duration := 1500 } (by decide)).2.2.1⟩

/-- C6: adding a preset appends exactly one timer, named "New Timer" with
1500 seconds and the timestamp string as id, at the end of the collection,
and changes nothing else. -/
theorem C6_add_preset (s : PomodoroState) (now : Nat) :
    (addNewTimer s now).timers =
      s.timers ++ [{ id := toString now, name := "New Timer", duration := 1500 }] ∧
    (addNewTimer s now).activeTimerId = s.activeTimerId ∧
    (addNewTimer s now).timeLeft = s.timeLeft ∧
    (addNewTimer s now).isActive = s.isActive ∧
    (addNewTimer s now).completedPomodoros = s.completedPomodoros ∧
    (addNewTimer s now).isEditing = s.isEditing ∧
    (addNewTimer s now).editingTimer = s.editingTimer :=
  ⟨rfl, rfl, rfl, rfl, rfl, rfl, rfl⟩

/-- A state obtained by clicking "Add New Timer" twice within the same
millisecond (`Date.now()` returning 5 both times). -/
def dupState : PomodoroState := addNewTimer (addNewTimer initialState 5) 5

/-- C7 counterexample: `dupState` is reachable, yet its preset ids are
`["1", "5", "5"]` — the id generated by the second addition collides with an
existing one, so ids are not unique in every reachable state. -/
theorem C7_id_unique_counterexample :
    Reachable dupState ∧ ¬ (dupState.timers.map (fun t => t.id)).Nodup :=
  ⟨Reachable.add 5 (Reachable.add 5 Reachable.init), by decide⟩

lemma saveEdit_ids (s : PomodoroState) :
    (saveEdit s).timers.map (fun t => t.id) = s.timers.map (fun t => t.id) := by
  unfold saveEdit
  cases he : s.editingTimer with
  | none => rfl
  | some e =>
    dsimp only
    have hmap : (s.timers.map (fun t : Timer =>
        if t.id == e.id then { t with name := e.name, duration := e.duration } else t)).map
          (fun t => t.id) = s.timers.map (fun t => t.id) := by
      rw [List.map_map]
      refine List.map_congr_left fun t ht => ?_
      dsimp only [Function.comp]
      split
      · rfl
      · rfl
    split
    · exact hmap
    · exact hmap

/-- C7 amended: ids are assigned at creation and never changed afterwards —
every operation preserves the id sequence, with `addNewTimer` appending the
timestamp string.  But the generated id is only distinct from the existing
ones when that timestamp string is not already present (two additions in the
same millisecond collide), and uniqueness is preserved exactly under that
assumption. -/
theorem C7_id_unique_amended :
    (∀ (s : PomodoroState) (now : Nat), (addNewTimer s now).timers.map (fun t => t.id) =
      s.timers.map (fun t => t.id) ++ [toString now]) ∧
    (∀ s : PomodoroState, (saveEdit s).timers.map (fun t => t.id) =
      s.timers.map (fun t => t.id)) ∧
    (∀ s : PomodoroState, (tick s).timers = s.timers ∧ (effectEval s).timers = s.timers ∧
      (toggleTimer s).timers = s.timers ∧ (resetTimer s).timers = s.timers ∧
      (∀ t, (selectPreset s t).timers = s.timers) ∧
      (∀ t, (startEditing s t).timers = s.timers) ∧
      (∀ m, (handleDurationChange s m).timers = s.timers) ∧
      (∀ x, (handleNameChange s x).timers = s.timers)) ∧
    (∀ (s : PomodoroState) (now : Nat),
      toString now ∉ s.timers.map (fun t => t.id) →
      (s.timers.map (fun t => t.id)).Nodup →
      ((addNewTimer s now).timers.map (fun t => t.id)).Nodup) := by
  have hdur : ∀ (s : PomodoroState) (m : String),
      (handleDurationChange s m).timers = s.timers := by
    intro s m
    unfold handleDurationChange
    cases s.editingTimer with
    | none => rfl
    | some e =>
      dsimp only
      cases jsParseInt m with
      | none => rfl
      | some mv =>
        dsimp only
        split
        · rfl
        · rfl
  have hname : ∀ (s : PomodoroState) (x : String),
      (handleNameChange s x).timers = s.timers := by
    intro s x
    unfold handleNameChange
    cases s.editingTimer with
    | none => rfl
    | some e => rfl
  refine ⟨fun s now => by rw [addNewTimer, List.map_append]; rfl, saveEdit_ids,
    fun s => ⟨tick_timers s, effectEval_timers s, rfl, (resetTimer_frame s).1,
      fun t => rfl, fun t => rfl, hdur s, hname s⟩,
    fun s now hni hnd => ?_⟩
  rw [addNewTimer, List.map_append, List.nodup_append]
  refine ⟨hnd, List.nodup_singleton _, fun x hx hx2 => ?_⟩
  simp only [List.map_cons, List.map_nil, List.mem_singleton] at hx2
  exact hni (hx2 ▸ hx)

/-- C7 amended witness: adding a preset at a fresh timestamp to the initial
state keeps the id list duplicate-free. -/
theorem C7_id_unique_amended_witness :
    ((addNewTimer initialState 5).timers.map (fun t => t.id)).Nodup :=
  C7_id_unique_amended.2.2.2 initialState 5 (by decide) (by decide)

/-- C8 counterexample: in the single-tone variant (the component version
without `try`/`catch` around `playNotificationSound`), an audio throw during
`handleTimerComplete` propagates and aborts the handler, so the completion
bookkeeping does not occur — the claim's "error is caught and not
propagated" is false there. -/
theorem C8_audio_caught_counterexample :
    handleTimerCompleteSingle true { initialState with isActive := true, timeLeft := 0 } =
      Except.error () ∧
    handleTimerCompleteSingle true { initialState with isActive := true, timeLeft := 0 } ≠
      Except.ok (handleTimerComplete { initialState with isActive := true, timeLeft := 0 }) :=
  ⟨rfl, fun h => Except.noConfusion h⟩

/-- C8 amended: in the canonical two-tone implementation the audio attempt
sits inside `try`/`catch`, so whether or not it throws, `handleTimerComplete`
returns normally with exactly the bookkeeping state (`isActive := false`,
`completedPomodoros + 1`, countdown reset through `resetTimer`) — the same
state as when audio succeeds; in the single-tone variant that holds only
when audio does not throw, and a throw propagates with no bookkeeping. -/
theorem C8_audio_caught_amended (audioThrows : Bool) (s : PomodoroState) :
    handleTimerCompleteTwoTone audioThrows s = Except.ok (handleTimerComplete s) ∧
    handleTimerCompleteTwoTone audioThrows s = handleTimerCompleteTwoTone false s ∧
    handleTimerCompleteSingle false s = Except.ok (handleTimerComplete s) ∧
    handleTimerCompleteSingle true s = Except.error () := by
  cases audioThrows with
  | false => exact ⟨rfl, rfl, rfl, rfl⟩
  | true => exact ⟨rfl, rfl, rfl, rfl⟩

lemma padStart2_length (str : String) : 2 ≤ (padStart2 str).length := by
  unfold padStart2
  split
  · next h =>
    rw [String.length_append]
    have hrep : (String.mk (List.replicate (2 - str.length) '0')).length =
        2 - str.length := by
      show (List.replicate (2 - str.length) '0').length = 2 - str.length
      simp
    rw [hrep]
    omega
  · omega

/-- C9: `formatTime` renders the spec's examples exactly, and in general
splits a non-negative number of seconds into `s / 60` and `s % 60`, each
rendered in decimal, zero-padded on the left to at least two characters, and
joined by ":". -/
theorem C9_format_time :
    formatTime 0 = "00:00" ∧ formatTime 65 = "01:05" ∧ formatTime 1500 = "25:00" ∧
    ∀ s : Nat, formatTime s =
        padStart2 (toString (s / 60)) ++ ":" ++ padStart2 (toString (s % 60)) ∧
      2 ≤ (padStart2 (toString (s / 60))).length ∧
      2 ≤ (padStart2 (toString (s % 60))).length :=
  ⟨by decide, by decide, by decide,
   fun s => ⟨rfl, padStart2_length _, padStart2_length _⟩⟩

/-- C10: `resetTimer` always stops the clock; when `activeTimerId` resolves
in the collection the countdown is loaded with that preset's stored
duration, and when it does not resolve the countdown is left unchanged; no
other field changes in either case. -/
theorem C10_reset (s : PomodoroState) :
    (resetTimer s).isActive = false ∧
    (resetTimer s).timers = s.timers ∧
    (resetTimer s).activeTimerId = s.activeTimerId ∧
    (resetTimer s).completedPomodoros = s.completedPomodoros ∧
    (resetTimer s).isEditing = s.isEditing ∧
    (resetTimer s).editingTimer = s.editingTimer ∧
    (∀ t, s.timers.find? (fun u => u.id == s.activeTimerId) = some t →
      (resetTimer s).timeLeft = t.duration) ∧
    (s.timers.find? (fun u => u.id == s.activeTimerId) = none →
      (resetTimer s).timeLeft = s.timeLeft) := by
  obtain ⟨h1, h2, h3, h4, h5, h6⟩ := resetTimer_frame s
  refine ⟨h6, h1, h2, h3, h4, h5, fun t ht => ?_, fun hn => ?_⟩
  · rw [resetTimer_found s t ht]
  · rw [resetTimer_none s hn]

/-- C10 witness: resetting the initial state reloads 1500 seconds, and
resetting a state whose active id resolves to no preset stops the clock but
leaves the countdown value alone. -/
theorem C10_reset_witness :
    (resetTimer initialState).isActive = false ∧
    (resetTimer initialState).timeLeft = 1500 ∧
    (resetTimer { initialState with activeTimerId := "zz", timeLeft := 42 }).timeLeft = 42 :=
  ⟨(C10_reset initialState).1,
   (C10_reset initialState).2.2.2.2.2.2.1 { id := "1", name := "Work", duration := 1500 }
     (by decide),
   (C10_reset { initialState with activeTimerId := "zz", timeLeft := 42 }).2.2.2.2.2.2.2
     (by decide)⟩
